import Mathlib

/-!
# Verification of the Catalog media front-end

Shallow embedding of the Catalog repository (client scripts
`public/app.js`, `public/streaming.js`, `public/details.js` and the
Express proxy server) together with proofs about the claims of its
natural-language specification.

JavaScript conventions modelled explicitly:
* optional / possibly-`undefined` values are `Option _`;
* JS truthiness of a number is `n ≠ 0`, of a string is `s ≠ ""`,
  of an object reference is `Option.isSome`;
* thrown exceptions are `Except` errors or explicit trace events.
-/

namespace Catalog

/-! ## JS value helpers -/

/-- JS truthiness of a possibly-undefined number (`undefined`, `null`
and `0` are falsy). -/
def truthyNum : Option Nat → Bool
  | none => false
  | some n => n != 0

/-- JS truthiness of a possibly-undefined string (`undefined` and `""`
are falsy). -/
def truthyStr : Option String → Bool
  | none => false
  | some s => s != ""

/-- JS `a || b` on a possibly-undefined string `a` with string default `b`. -/
def jsOrStr (a : Option String) (b : String) : String :=
  match a with
  | some s => if s = "" then b else s
  | none => b

/-! ## URL encoding (`URLSearchParams.toString`)

`URLSearchParams` serialises with `application/x-www-form-urlencoded`
encoding: alphanumerics and `*-._` are kept, space becomes `+`, every
other byte of the UTF-8 encoding becomes `%XX` (uppercase hex). -/

/-- Uppercase hexadecimal digit for `n < 16`. -/
def hexDigit (n : Nat) : Char :=
  if n < 10 then Char.ofNat (48 + n) else Char.ofNat (55 + n)

/-- UTF-8 byte sequence of a Unicode code point. -/
def utf8Bytes (n : Nat) : List Nat :=
  if n < 0x80 then [n]
  else if n < 0x800 then [0xC0 + n / 64, 0x80 + n % 64]
  else if n < 0x10000 then
    [0xE0 + n / 4096, 0x80 + (n / 64) % 64, 0x80 + n % 64]
  else
    [0xF0 + n / 262144, 0x80 + (n / 4096) % 64, 0x80 + (n / 64) % 64,
      0x80 + n % 64]

/-- Is this byte left unescaped by `application/x-www-form-urlencoded`? -/
def isFormUnreserved (b : Nat) : Bool :=
  (48 ≤ b && b ≤ 57) || (65 ≤ b && b ≤ 90) || (97 ≤ b && b ≤ 122) ||
    b == 42 || b == 45 || b == 46 || b == 95

/-- Encode one byte as `application/x-www-form-urlencoded` text. -/
def formEncodeByte (b : Nat) : String :=
  if b = 32 then "+"
  else if isFormUnreserved b then (Char.ofNat b).toString
  else String.mk ['%', hexDigit (b / 16), hexDigit (b % 16)]

/-- `application/x-www-form-urlencoded` encoding of a string. -/
def formEncode (s : String) : String :=
  String.join (s.data.map fun c => String.join ((utf8Bytes c.toNat).map formEncodeByte))

/-- `URLSearchParams.toString()` on an ordered key/value list. -/
def searchParamsToString (l : List (String × String)) : String :=
  String.intercalate "&" (l.map fun kv => formEncode kv.1 ++ "=" ++ formEncode kv.2)

/-! ## Stream resolution (`fetchStreamUrlV2`, app.js 111-164 /
streaming.js 92-146)

The argument object of `fetchStreamUrlV2`.  `tmdbId`, `season` and
`episode` are numbers in every call site, so missing/`undefined` fields
are `none` and present numbers are `some n`. -/

structure StreamParams where
  type : String
  tmdbId : Option Nat := none
  season : Option Nat := none
  episode : Option Nat := none
  provider : Option String := none
deriving DecidableEq, Repr

/-- `getCurrentProvider()`: `currentProvider || 'vidlink'` where `cur`
is the module-level `currentProvider` variable. -/
def getCurrentProvider (cur : String) : String :=
  if cur = "" then "vidlink" else cur

/-- `setCurrentProvider(provider)`: anything other than the two known
providers falls back to `'vidlink'`; the result is the new value of the
module-level `currentProvider` variable. -/
def setCurrentProvider (provider : String) : String :=
  if provider != "vidlink" && provider != "filmex" then "vidlink" else provider

/-- The validation / query-building prefix of `fetchStreamUrlV2`,
everything that runs before the `fetch`: either a thrown error message,
or the ordered `URLSearchParams` key/value pairs of the request.
`cur` is the module-level `currentProvider`. -/
def fetchStreamUrlV2Params (cur : String) (p : StreamParams) :
    Except String (List (String × String)) :=
  let provider := jsOrStr p.provider (getCurrentProvider cur)
  let base : List (String × String) :=
    [("type", p.type)] ++ (if provider ≠ "" then [("provider", provider)] else [])
  if p.type = "movie" then
    if ¬ truthyNum p.tmdbId then
      .error "tmdbId is required for movie playback."
    else
      .ok (base ++ [("tmdbId", toString (p.tmdbId.getD 0))])
  else if p.type = "tv" then
    if ¬ (truthyNum p.tmdbId ∧ truthyNum p.season ∧ truthyNum p.episode) then
      .error "tmdbId, season and episode are required for TV playback."
    else
      .ok (base ++
        [("tmdbId", toString (p.tmdbId.getD 0)),
          ("season", toString (p.season.getD 0)),
          ("episode", toString (p.episode.getD 0))])
  else if p.type = "anime" then
    .error "Anime playback is not wired up in this UI yet."
  else
    .ok base

/-- The `/v2/stream` response body, after `res.json()`:
`data` may be `null`/undefined (`none`), otherwise it carries the
duck-typed envelope fields read by the client. -/
structure ProxyData where
  ok : Bool
  url : Option String := none
  message : Option String := none
  error : Option String := none
  details : Option String := none
deriving DecidableEq, Repr

/-- Outcome of the `fetch(endpoint)` + `res.json()` step: either the
network/JSON layer throws, or it yields a (possibly null) body. -/
inductive FetchOutcome where
  | netError
  | response (data : Option ProxyData)
deriving DecidableEq, Repr

/-- Result of a whole `fetchStreamUrlV2` run, remembering whether a
network request was issued and to which endpoint. -/
inductive ResolveResult where
  | failedValidation (msg : String)
  | failedAfterRequest (endpoint msg : String)
  | resolved (endpoint url : String)
deriving DecidableEq, Repr

/-- The endpoint `fetchStreamUrlV2` actually fetched, if any. -/
def ResolveResult.issuedRequest : ResolveResult → Option String
  | .failedValidation _ => none
  | .failedAfterRequest ep _ => some ep
  | .resolved ep _ => some ep

/-- The error message of the response-envelope check of
`fetchStreamUrlV2`: `(data && (data.message || data.error)) || default`. -/
def proxyFailureMessage (data : Option ProxyData) : String :=
  let fromData :=
    match data with
    | none => none
    | some d =>
      match d.message with
      | some m => if m = "" then d.error else some m
      | none => d.error
  match fromData with
  | some m => if m = "" then "Streaming is not available for this title right now." else m
  | none => "Streaming is not available for this title right now."

/-- Whole-function model of `fetchStreamUrlV2`: validate and build the
query, then (only if validation passed) issue the request and check the
response envelope `!data || !data.ok || !data.url`. -/
def fetchStreamUrlV2 (cur base : String) (p : StreamParams)
    (out : FetchOutcome) : ResolveResult :=
  match fetchStreamUrlV2Params cur p with
  | .error msg => .failedValidation msg
  | .ok pairs =>
    let endpoint := base ++ "/v2/stream?" ++ searchParamsToString pairs
    match out with
    | .netError => .failedAfterRequest endpoint "Failed to contact streaming proxy."
    | .response data =>
      match data with
      | none => .failedAfterRequest endpoint (proxyFailureMessage none)
      | some d =>
        if d.ok && truthyStr d.url then
          .resolved endpoint (d.url.getD "")
        else
          .failedAfterRequest endpoint (proxyFailureMessage (some d))

/-! ## Playback attachment (`loadStreamIntoVideo`, app.js 173-207 /
streaming.js 155-189)

We model the observable effects of one `loadStreamIntoVideo` call as a
list of events in program order.  The function is `async` but every
segment between `await` points is synchronous, so the event list of one
call is exactly the code's source order; the single suspension point is
the `await fetchStreamUrlV2(...)`, which sits at the `resolveRequest`
event. -/

inductive PlayEvent where
  | videoPause
  | videoRemoveSrc
  | videoLoad
  | resolveRequest (endpoint : String)
  | hlsCleanup
  | hlsCreate
  | attachSource (url : String)
  | throwErr (msg : String)
deriving DecidableEq, Repr

/-- Browser / runtime environment of one `loadStreamIntoVideo` call:
whether the video element argument is non-null, whether `window.Hls`
exists and `Hls.isSupported()`, whether the element `canPlayType`
HLS natively, and what the network returns. -/
structure PlayEnv where
  videoPresent : Bool
  hlsSupported : Bool
  nativeSupported : Bool
  fetchOutcome : FetchOutcome
deriving DecidableEq, Repr

/-- Event trace of one `loadStreamIntoVideo(params, videoEl)` call.
`cur` is the module-level `currentProvider`, `base` the proxy base URL. -/
def loadStreamIntoVideoTrace (cur base : String) (p : StreamParams)
    (env : PlayEnv) : List PlayEvent :=
  if ¬ env.videoPresent then []
  else
    let provider := jsOrStr p.provider (getCurrentProvider cur)
    let reset : List PlayEvent := [.videoPause, .videoRemoveSrc, .videoLoad]
    match fetchStreamUrlV2 cur base { p with provider := some provider }
        env.fetchOutcome with
    | .failedValidation msg => reset ++ [.throwErr msg]
    | .failedAfterRequest ep msg => reset ++ [.resolveRequest ep, .throwErr msg]
    | .resolved ep url =>
      reset ++ [.resolveRequest ep, .hlsCleanup] ++
        (if env.hlsSupported then [.hlsCreate, .attachSource url]
         else if env.nativeSupported then [.attachSource url]
         else [.throwErr "HLS playback is not supported in this browser."])

/-! ## Hls.js instance bookkeeping (`cleanupHls`, app.js 89-98 /
streaming.js 70-79)

`currentHlsInstance` is the module-level tracked instance; `live` is
the multiset (as a list of distinct ids) of constructed-and-not-yet-
destroyed `Hls` instances; `next` supplies fresh ids. -/

structure HlsState where
  tracked : Option Nat
  live : List Nat
  next : Nat
deriving DecidableEq, Repr

/-- The initial module state: no instance was ever created. -/
def initHlsState : HlsState := ⟨none, [], 0⟩

/-- `cleanupHls()`: destroy the tracked instance (if any) and clear the
reference. -/
def cleanupHls (s : HlsState) : HlsState :=
  { s with
    live := match s.tracked with
      | some i => s.live.filter (fun j => j ≠ i)
      | none => s.live
    tracked := none }

/-- `new Hls()` followed by `currentHlsInstance = hls`: a fresh live
instance becomes the tracked one. -/
def createHls (s : HlsState) : HlsState :=
  { tracked := some s.next, live := s.next :: s.live, next := s.next + 1 }

/-- Effect of one playback event on the Hls bookkeeping state; only
`hlsCleanup` and `hlsCreate` touch it. -/
def hlsStep (s : HlsState) : PlayEvent → HlsState
  | .hlsCleanup => cleanupHls s
  | .hlsCreate => createHls s
  | _ => s

/-- Run a list of playback events over the Hls bookkeeping state. -/
def runEvents (s : HlsState) (t : List PlayEvent) : HlsState :=
  t.foldl hlsStep s

/-- Does an event read or write the Hls bookkeeping state? -/
def isHlsOp : PlayEvent → Bool
  | .hlsCleanup => true
  | .hlsCreate => true
  | _ => false

/-- The Hls-relevant subsequence of a trace. -/
def hlsOps (t : List PlayEvent) : List PlayEvent := t.filter isHlsOp

/-- Phase number of an event inside one `loadStreamIntoVideo` call;
the code emits events in nondecreasing phase order. -/
def phaseOf : PlayEvent → Nat
  | .videoPause => 0
  | .videoRemoveSrc => 0
  | .videoLoad => 0
  | .resolveRequest _ => 1
  | .hlsCleanup => 2
  | .hlsCreate => 3
  | .attachSource _ => 4
  | .throwErr _ => 5

/-! ## Playback session (`currentPlayback`, app.js 298 / details.js)

The session object stored by the render functions.  Destructuring a
field that was not stored yields `undefined`, hence the `Option`s. -/

structure MovieRef where
  id : Nat
deriving DecidableEq, Repr

structure TvRef where
  id : Nat
deriving DecidableEq, Repr

structure SeasonRef where
  season_number : Nat
deriving DecidableEq, Repr

structure EpisodeRef where
  episode_number : Nat
deriving DecidableEq, Repr

structure PlaybackSession where
  kind : String
  movie : Option MovieRef := none
  tv : Option TvRef := none
  season : Option SeasonRef := none
  episode : Option EpisodeRef := none
  videoElPresent : Bool
deriving DecidableEq, Repr

/-! ## View router (`showHome` / `showDetail`, details.js 13-64;
`showCricket`, details.js 713-747)

The DOM state the three transition functions read and write.  The
`*Present` flags model whether `document.getElementById` found the
element (the functions guard on them). -/

structure ViewState where
  homePresent : Bool
  detailPresent : Bool
  cricketPresent : Bool
  homeButtonPresent : Bool
  cricketButtonPresent : Bool
  homeDisplay : String
  detailDisplay : String
  cricketDisplay : String
  detailHtml : String
  homeButtonActive : Bool
  cricketButtonActive : Bool
  hls : HlsState
  currentPlayback : Option PlaybackSession
deriving DecidableEq, Repr

/-- `showHome()` (details.js 13-37). -/
def showHome (s : ViewState) : ViewState :=
  if ¬ (s.homePresent ∧ s.detailPresent) then s
  else
    { s with
      homeDisplay := "flex"
      detailDisplay := "none"
      detailHtml := ""
      cricketDisplay := if s.cricketPresent then "none" else s.cricketDisplay
      hls := cleanupHls s.hls
      currentPlayback := none
      homeButtonActive := if s.homeButtonPresent then true else s.homeButtonActive
      cricketButtonActive :=
        if s.cricketButtonPresent then false else s.cricketButtonActive }

/-- `showDetail()` (details.js 42-64).  Note: unlike `showHome` and
`showCricket` it does not touch `window.currentPlayback`. -/
def showDetail (s : ViewState) : ViewState :=
  if ¬ (s.homePresent ∧ s.detailPresent) then s
  else
    { s with
      homeDisplay := "none"
      detailDisplay := "block"
      cricketDisplay := if s.cricketPresent then "none" else s.cricketDisplay
      hls := cleanupHls s.hls
      homeButtonActive := if s.homeButtonPresent then false else s.homeButtonActive
      cricketButtonActive :=
        if s.cricketButtonPresent then false else s.cricketButtonActive }

/-- `showCricket()` (details.js 713-747). -/
def showCricket (s : ViewState) : ViewState :=
  if ¬ (s.cricketPresent ∧ s.homePresent ∧ s.detailPresent) then s
  else
    { s with
      homeDisplay := "none"
      detailDisplay := "none"
      cricketDisplay := "block"
      hls := cleanupHls s.hls
      currentPlayback := none
      homeButtonActive := if s.homeButtonPresent then false else s.homeButtonActive
      cricketButtonActive :=
        if s.cricketButtonPresent then true else s.cricketButtonActive }

/-- A view is visible when its inline display style is not `"none"`. -/
def visibleViews (s : ViewState) : Nat :=
  (if s.homeDisplay ≠ "none" then 1 else 0) +
    (if s.detailDisplay ≠ "none" then 1 else 0) +
    (if s.cricketDisplay ≠ "none" then 1 else 0)

/-! ## Provider switch & replay (app.js 588-632)

`replayCurrentPlayback` reads the module-level `currentPlayback` and,
for a live session, restarts playback through `startMoviePlayback` /
`startEpisodePlayback`, which call `loadStreamIntoVideo` with the
parameter object modelled here.  The result is the parameter object
passed to `loadStreamIntoVideo` (if the call is reached) together with
the value of `currentPlayback` afterwards (no branch writes it). -/

/-- Parameters `startMoviePlayback` passes to `loadStreamIntoVideo`
(app.js 223-230), given the current provider `cur`; `none` when its
`!movie || !movie.id` guard returns early. -/
def startMoviePlaybackParams (cur : String) (movie : Option MovieRef) :
    Option StreamParams :=
  match movie with
  | none => none
  | some m =>
    if m.id = 0 then none
    else some { type := "movie", tmdbId := some m.id,
                provider := some (getCurrentProvider cur) }

/-- Parameters `startEpisodePlayback` passes to `loadStreamIntoVideo`
(app.js 259-267); `none` when its `!tv || !tv.id || !season ||
!episode` guard returns early. -/
def startEpisodePlaybackParams (cur : String) (tv : Option TvRef)
    (season : Option SeasonRef) (episode : Option EpisodeRef) :
    Option StreamParams :=
  match tv, season, episode with
  | some t, some sn, some ep =>
    if t.id = 0 then none
    else some { type := "tv", tmdbId := some t.id,
                season := some sn.season_number,
                episode := some ep.episode_number,
                provider := some (getCurrentProvider cur) }
  | _, _, _ => none

/-- `replayCurrentPlayback()` (app.js 588-612): first component is the
parameter object handed to `loadStreamIntoVideo` (if any), second the
value of `currentPlayback` after the call. -/
def replayCurrentPlayback (cur : String) (sess : Option PlaybackSession) :
    Option StreamParams × Option PlaybackSession :=
  match sess with
  | none => (none, none)
  | some s =>
    if ¬ s.videoElPresent then (none, sess)
    else if s.kind = "movie" ∧ s.movie.isSome then
      (startMoviePlaybackParams cur s.movie, sess)
    else if s.kind = "tv" ∧ s.tv.isSome ∧ s.season.isSome ∧ s.episode.isSome then
      (startEpisodePlaybackParams cur s.tv s.season s.episode, sess)
    else (none, sess)

/-! ## Seasons UI filter (`renderTvSeasons`, details.js 327-329) -/

structure SeasonInfo where
  season_number : Nat
  episode_count : Nat
deriving DecidableEq, Repr

/-- The season list shown by `renderTvSeasons`:
`tv.seasons.filter((s) => s.season_number > 0 && s.episode_count > 0)`. -/
def selectableSeasons (seasons : List SeasonInfo) : List SeasonInfo :=
  seasons.filter fun s => decide (0 < s.season_number) && decide (0 < s.episode_count)

/-! ## Client search (app.js 443-545) -/

/-- The JS `String.prototype.trim` whitespace set: WhiteSpace
(TAB VT FF SP NBSP ZWNBSP and Unicode Zs) plus LineTerminator
(LF CR LS PS). -/
def isJsWhitespace (c : Char) : Bool :=
  [0x9, 0xA, 0xB, 0xC, 0xD, 0x20, 0xA0, 0x1680, 0x2000, 0x2001, 0x2002,
    0x2003, 0x2004, 0x2005, 0x2006, 0x2007, 0x2008, 0x2009, 0x200A,
    0x2028, 0x2029, 0x202F, 0x205F, 0x3000, 0xFEFF].contains c.toNat

/-- JS `value.trim()`: strip leading and trailing JS whitespace. -/
def jsTrim (s : String) : String :=
  ⟨((s.data.dropWhile isJsWhitespace).reverse.dropWhile isJsWhitespace).reverse⟩

structure SearchUIState where
  resultsPresent : Bool
  resultsHtml : String
  resultsHidden : Bool
  pendingQuery : Option String
deriving DecidableEq, Repr

/-- `clearSearchResults()` (app.js 443-447). -/
def clearSearchResults (s : SearchUIState) : SearchUIState :=
  if ¬ s.resultsPresent then s
  else { s with resultsHtml := "", resultsHidden := true }

/-- `encodeURIComponent` unreserved characters: alphanumerics and
`- _ . ! ~ * ' ( )`. -/
def isUriComponentUnreserved (b : Nat) : Bool :=
  (48 ≤ b && b ≤ 57) || (65 ≤ b && b ≤ 90) || (97 ≤ b && b ≤ 122) ||
    b == 33 || b == 39 || b == 40 || b == 41 || b == 42 || b == 45 ||
    b == 46 || b == 95 || b == 126

/-- `encodeURIComponent(s)`. -/
def encodeURIComponent (s : String) : String :=
  String.join (s.data.map fun c =>
    String.join ((utf8Bytes c.toNat).map fun b =>
      if isUriComponentUnreserved b then (Char.ofNat b).toString
      else String.mk ['%', hexDigit (b / 16), hexDigit (b % 16)]))

/-- `performSearch(query)` (app.js 512-528), up to and including the
decision whether to issue the network request: first component is the
URL fetched (if any), second the UI state after the synchronous prefix. -/
def performSearch (query : String) (s : SearchUIState) :
    Option String × SearchUIState :=
  if (jsTrim query).length = 0 then (none, clearSearchResults s)
  else (some ("/api/search/multi?query=" ++ encodeURIComponent (jsTrim query)), s)

/-- `onSearchInput(event)` (app.js 530-545): clears any pending
debounce timer, and either clears the dropdown (whitespace input,
no timer scheduled) or schedules `performSearch(value)`. -/
def onSearchInput (value : String) (s : SearchUIState) : SearchUIState :=
  let s := { s with pendingQuery := none }
  if jsTrim value = "" then clearSearchResults s
  else { s with pendingQuery := some value }

/-! ## Proxy server (Express app, `/api/*` handlers)

Each handler forwards to TMDB and either relays the upstream JSON or
answers via `handleTmdbError`.  An upstream failure is an axios error
carrying `error.response.status` when an HTTP response arrived
(`none` for network errors). -/

inductive RespBody where
  | emptyResults
  | upstream (data : String)
  | errorObj (msg : String)
deriving DecidableEq, Repr

/-- `handleTmdbError` (server, lines 37-41):
`status = error?.response?.status || 500`, body `{error: '...'}`. -/
def handleTmdbError (status : Option Nat) : Nat × RespBody :=
  (match status with
    | some st => if st ≠ 0 then st else 500
    | none => 500,
   .errorObj "Failed to fetch data from TMDB")

/-- A generic `/api/*` proxy handler body: relay upstream JSON with
status 200, or delegate to `handleTmdbError`. -/
def proxyHandler (upstream : Except (Option Nat) String) : Nat × RespBody :=
  match upstream with
  | .ok data => (200, .upstream data)
  | .error status => handleTmdbError status

/-- `GET /api/search/multi` handler (server, lines 43-60): result is
(upstream contacted?, response status, response body).  `query` is
`req.query.query` (`none` when the parameter is absent). -/
def searchMultiHandler (query : Option String)
    (upstream : Except (Option Nat) String) : Bool × Nat × RespBody :=
  if ¬ truthyStr query then (false, 200, .emptyResults)
  else
    match proxyHandler upstream with
    | (st, body) => (true, st, body)

/-! ## Auxiliary definitions used by the claim statements -/

/-- At most one live `Hls` instance exists and the module-level
`currentHlsInstance` reference is accurate. -/
def HlsInv (s : HlsState) : Prop :=
  s.live = [] ∨ ∃ i, s.live = [i] ∧ s.tracked = some i

/-- Sequences assembled from the per-call Hls op blocks: each block is
empty, `[cleanup]`, or `[cleanup, create]`. -/
inductive IsBlockSeq : List PlayEvent → Prop
  | nil : IsBlockSeq []
  | block (b rest : List PlayEvent)
      (hb : b = [] ∨ b = [.hlsCleanup] ∨ b = [.hlsCleanup, .hlsCreate])
      (hr : IsBlockSeq rest) : IsBlockSeq (b ++ rest)

/-- One `loadStreamIntoVideo` call with its module state and inputs. -/
structure LoadCall where
  cur : String
  base : String
  params : StreamParams
  env : PlayEnv

/-- The event trace of one call. -/
def loadCallTrace (c : LoadCall) : List PlayEvent :=
  loadStreamIntoVideoTrace c.cur c.base c.params c.env

/-- The concatenated trace of a whole sequence of playback-session
starts.  Each call's Hls-touching region is a single synchronous block
(no `await` separates `cleanupHls()` from `new Hls()`), so any
event-loop interleaving of the calls acts on the Hls state exactly as
this concatenation does. -/
def sessionTrace (calls : List LoadCall) : List PlayEvent :=
  (calls.map loadCallTrace).flatten

/-- The ordering claim C2 asserts of a trace: every destruction of the
existing Hls instance (`cleanupHls`) happens strictly before every
resolution request to the stream-resolution endpoint. -/
def destroysBeforeResolving (t : List PlayEvent) : Prop :=
  ∀ i j ep, t.get? i = some .hlsCleanup →
    t.get? j = some (.resolveRequest ep) → i < j

/-- A concrete successful movie playback run used to settle C2. -/
def c2RunTrace : List PlayEvent :=
  loadStreamIntoVideoTrace "vidlink" "http://localhost:4000"
    { type := "movie", tmdbId := some 603, provider := some "vidlink" }
    ⟨true, true, false, .response (some { ok := true, url := some "http://u/a.m3u8" })⟩

/-- A concrete pre-transition view state used to settle C3: all
elements present, the detail view showing a movie playback session. -/
def c3State : ViewState :=
  { homePresent := true, detailPresent := true, cricketPresent := true
    homeButtonPresent := true, cricketButtonPresent := true
    homeDisplay := "none", detailDisplay := "block", cricketDisplay := "none"
    detailHtml := "<section>movie</section>"
    homeButtonActive := false, cricketButtonActive := false
    hls := { tracked := some 0, live := [0], next := 1 }
    currentPlayback :=
      some { kind := "movie", movie := some ⟨603⟩, videoElPresent := true } }

/-- The concrete session used to evaluate C9: episode S1E1 of show
1399 playing in a present video element. -/
def c9Session : PlaybackSession :=
  { kind := "tv", tv := some ⟨1399⟩, season := some ⟨1⟩,
    episode := some ⟨1⟩, videoElPresent := true }

/-! ## The at-most-one-instance invariant -/

theorem hlsInv_init : HlsInv initHlsState := Or.inl rfl

/-- `cleanupHls` always leaves zero live instances from an invariant
state: the only live instance is the tracked one, which it destroys. -/
theorem cleanup_live_nil {s : HlsState} (h : HlsInv s) :
    (cleanupHls s).live = [] := by
  rcases h with h | ⟨i, hl, ht⟩
  · cases hs : s.tracked <;> simp [cleanupHls, hs, h]
  · simp [cleanupHls, hl, ht, List.filter]

theorem hlsInv_cleanup {s : HlsState} (h : HlsInv s) :
    HlsInv (cleanupHls s) := Or.inl (cleanup_live_nil h)

theorem hlsInv_create (s : HlsState) (h : s.live = []) :
    HlsInv (createHls s) :=
  Or.inr ⟨s.next, by simp [createHls, h], rfl⟩

theorem hlsInv_live_len {s : HlsState} (h : HlsInv s) : s.live.length ≤ 1 := by
  rcases h with h | ⟨i, hl, _⟩
  · simp [h]
  · simp [hl]

theorem prefix_split {α : Type} {pre xs ys : List α}
    (h : pre <+: xs ++ ys) :
    pre <+: xs ∨ ∃ pre', pre = xs ++ pre' ∧ pre' <+: ys := by
  induction xs generalizing pre with
  | nil => exact Or.inr ⟨pre, rfl, by simpa using h⟩
  | cons x xs ih =>
    cases pre with
    | nil => exact Or.inl List.nil_prefix
    | cons a as =>
      rw [List.cons_append, List.cons_prefix_cons] at h
      obtain ⟨rfl, h⟩ := h
      rcases ih h with h' | ⟨pre', rfl, hp⟩
      · exact Or.inl (by simpa [List.cons_prefix_cons] using h')
      · exact Or.inr ⟨pre', rfl, hp⟩

theorem prefix_singleton {α : Type} {a : α} {pre : List α}
    (h : pre <+: [a]) : pre = [] ∨ pre = [a] := by
  rcases @prefix_split α pre [a] [] (by simpa using h) with h' | ⟨pre', rfl, _⟩
  · rcases h' with ⟨t, ht⟩
    cases pre with
    | nil => exact Or.inl rfl
    | cons x xs =>
      simp only [List.cons_append, List.cons.injEq] at ht
      obtain ⟨rfl, ht⟩ := ht
      have : xs = [] := by
        cases xs with
        | nil => rfl
        | cons y ys => simp at ht
      exact Or.inr (by rw [this])
  · rename_i hp'
    obtain rfl : pre' = [] := List.prefix_nil.mp hp'
    exact Or.inr (by simp)

theorem prefix_pair {α : Type} {a b : α} {pre : List α}
    (h : pre <+: [a, b]) : pre = [] ∨ pre = [a] ∨ pre = [a, b] := by
  have : pre <+: [a] ++ [b] := by simpa using h
  rcases prefix_split this with h' | ⟨pre', rfl, hp⟩
  · rcases prefix_singleton h' with rfl | rfl
    · exact Or.inl rfl
    · exact Or.inr (Or.inl rfl)
  · rcases prefix_singleton hp with rfl | rfl
    · exact Or.inr (Or.inl (by simp))
    · exact Or.inr (Or.inr rfl)

/-- Only `hlsCleanup` / `hlsCreate` events touch the Hls state, so a
run may be restricted to the `hlsOps` subsequence. -/
theorem runEvents_hlsOps (s : HlsState) (t : List PlayEvent) :
    runEvents s t = runEvents s (hlsOps t) := by
  induction t generalizing s with
  | nil => rfl
  | cons e t ih =>
    cases e <;> simp [runEvents, hlsOps, List.filter, isHlsOp, hlsStep] <;>
      exact ih _

/-- The Hls-relevant ops of one `loadStreamIntoVideo` call: nothing
(null video element, or a throw before `cleanupHls`), a lone cleanup
(native / unsupported branch), or a cleanup immediately followed by a
create (Hls.js branch). -/
theorem hlsOps_trace (cur base : String) (p : StreamParams) (env : PlayEnv) :
    hlsOps (loadStreamIntoVideoTrace cur base p env) = [] ∨
      hlsOps (loadStreamIntoVideoTrace cur base p env) = [.hlsCleanup] ∨
      hlsOps (loadStreamIntoVideoTrace cur base p env) =
        [.hlsCleanup, .hlsCreate] := by
  unfold loadStreamIntoVideoTrace
  by_cases hv : env.videoPresent
  · simp only [hv, not_true, if_false]
    cases hfs : fetchStreamUrlV2 cur base
        { p with provider := some (jsOrStr p.provider (getCurrentProvider cur)) }
        env.fetchOutcome with
    | failedValidation msg => left; simp [hlsOps, List.filter, isHlsOp]
    | failedAfterRequest ep msg => left; simp [hlsOps, List.filter, isHlsOp]
    | resolved ep url =>
      by_cases hh : env.hlsSupported
      · right; right; simp [hh, hlsOps, List.filter, isHlsOp]
      · right; left
        by_cases hn : env.nativeSupported <;>
          simp [hh, hn, hlsOps, List.filter, isHlsOp]
  · left; simp [hv, hlsOps]

/-- Any prefix of a block sequence (so: the program state at any point
in time, including mid-call) keeps the invariant. -/
theorem blockSeq_safe {l : List PlayEvent} (hl : IsBlockSeq l) :
    ∀ s, HlsInv s → ∀ pre, pre <+: l → HlsInv (runEvents s pre) := by
  induction hl with
  | nil =>
    intro s hs pre hp
    obtain rfl : pre = [] := List.prefix_nil.mp hp
    exact hs
  | block b rest hb _ ih =>
    intro s hs pre hp
    rcases prefix_split hp with hp1 | ⟨pre', rfl, hp2⟩
    · rcases hb with rfl | rfl | rfl
      · obtain rfl : pre = [] := List.prefix_nil.mp hp1
        exact hs
      · rcases prefix_singleton hp1 with rfl | rfl
        · exact hs
        · exact hlsInv_cleanup hs
      · rcases prefix_pair hp1 with rfl | rfl | rfl
        · exact hs
        · exact hlsInv_cleanup hs
        · exact hlsInv_create _ (cleanup_live_nil hs)
    · have hsb : HlsInv (runEvents s b) := by
        rcases hb with rfl | rfl | rfl
        · exact hs
        · exact hlsInv_cleanup hs
        · exact hlsInv_create _ (cleanup_live_nil hs)
      rw [runEvents, List.foldl_append]
      exact ih (runEvents s b) hsb pre' hp2

theorem isBlockSeq_sessionTrace (calls : List LoadCall) :
    IsBlockSeq (hlsOps (sessionTrace calls)) := by
  induction calls with
  | nil => exact IsBlockSeq.nil
  | cons c rest ih =>
    have : hlsOps (sessionTrace (c :: rest)) =
        hlsOps (loadCallTrace c) ++ hlsOps (sessionTrace rest) := by
      simp [sessionTrace, hlsOps, List.filter_append]
    rw [this]
    exact IsBlockSeq.block _ _
      (hlsOps_trace c.cur c.base c.params c.env) ih

/-- C1.  For every sequence of playback-session starts
(`startMoviePlayback` / `startEpisodePlayback` / `loadStreamIntoVideo`
calls, in any order, with any arguments and any environments), at most
one Hls instance is live at every point of the execution: every path
that constructs a new `Hls` instance first runs `cleanupHls`, which
destroys and clears the previously tracked instance.  Stated over every
prefix `pre` of the concatenated event trace, starting from the initial
module state (no instance ever created). -/
theorem claim_C1_at_most_one_hls_instance (calls : List LoadCall)
    (pre : List PlayEvent) (hp : pre <+: sessionTrace calls) :
    (runEvents initHlsState pre).live.length ≤ 1 := by
  rw [runEvents_hlsOps]
  exact hlsInv_live_len
    (blockSeq_safe (isBlockSeq_sessionTrace calls) initHlsState hlsInv_init
      (hlsOps pre) (hp.filter isHlsOp))

/-- A sample full run for C1: two session starts (a movie resolved via
Hls.js, then an episode resolved natively); the whole trace is a prefix
of itself, and at its end at most one instance is live. -/
theorem claim_C1_at_most_one_hls_instance_witness :
    (runEvents initHlsState
        (sessionTrace
          [⟨"vidlink", "http://localhost:4000",
              { type := "movie", tmdbId := some 603,
                provider := some "vidlink" },
              ⟨true, true, false,
                .response (some { ok := true, url := some "http://u/a.m3u8" })⟩⟩,
            ⟨"filmex", "http://localhost:4000",
              { type := "tv", tmdbId := some 1399, season := some 1,
                episode := some 1, provider := some "filmex" },
              ⟨true, false, true,
                .response (some { ok := true, url := some "http://u/b.m3u8" })⟩⟩])).live.length ≤ 1 :=
  claim_C1_at_most_one_hls_instance _ _ ⟨[], List.append_nil _⟩

/-! ## C2: ordering inside `loadStreamIntoVideo` -/

/-- C2, counterexample.  On a concrete successful movie-playback call,
`loadStreamIntoVideo` issues the resolution request (the `fetch` inside
`fetchStreamUrlV2`, trace position 3) strictly before it destroys the
existing Hls instance (`cleanupHls()`, trace position 4): the old
decoder instance is still alive while the new source is being resolved,
refuting the claimed ordering. -/
theorem claim_C2_counterexample :
    c2RunTrace =
      [.videoPause, .videoRemoveSrc, .videoLoad,
        .resolveRequest
          "http://localhost:4000/v2/stream?type=movie&provider=vidlink&tmdbId=603",
        .hlsCleanup, .hlsCreate, .attachSource "http://u/a.m3u8"] ∧
      ¬ destroysBeforeResolving c2RunTrace := by
  refine ⟨by rfl, fun h => ?_⟩
  have := h 4 3
    "http://localhost:4000/v2/stream?type=movie&provider=vidlink&tmdbId=603"
    (by rfl) (by rfl)
  omega

/-- C2, amended.  For every call to `loadStreamIntoVideo` (with any
provider state, proxy base, parameters and environment): the video
element is reset (pause, remove `src`, load) before the stream
resolution request; the existing Hls instance is destroyed *after* the
resolution request returns but strictly before the new Hls instance is
created or any new source is attached.  This is expressed by the event
phases (reset = 0, resolve = 1, cleanup = 2, create = 3, attach = 4,
throw = 5) being nondecreasing along the trace, together with: whenever
a new instance is created or a source attached, a cleanup occurs in the
trace (and, by monotonicity, before it). -/
theorem claim_C2_amended_reset_resolve_cleanup_attach_order
    (cur base : String) (p : StreamParams) (env : PlayEnv) :
    ((loadStreamIntoVideoTrace cur base p env).map phaseOf).Chain' (· ≤ ·) ∧
      (PlayEvent.hlsCreate ∈ loadStreamIntoVideoTrace cur base p env →
        PlayEvent.hlsCleanup ∈ loadStreamIntoVideoTrace cur base p env) ∧
      (∀ u, PlayEvent.attachSource u ∈ loadStreamIntoVideoTrace cur base p env →
        PlayEvent.hlsCleanup ∈ loadStreamIntoVideoTrace cur base p env) := by
  unfold loadStreamIntoVideoTrace
  by_cases hv : env.videoPresent
  · simp only [hv, not_true, if_false]
    cases hfs : fetchStreamUrlV2 cur base
        { p with provider := some (jsOrStr p.provider (getCurrentProvider cur)) }
        env.fetchOutcome with
    | failedValidation msg => simp [List.chain'_cons, phaseOf]
    | failedAfterRequest ep msg => simp [List.chain'_cons, phaseOf]
    | resolved ep url =>
      by_cases hh : env.hlsSupported
      · simp [hh, List.chain'_cons, phaseOf]
      · by_cases hn : env.nativeSupported <;>
          simp [hh, hn, List.chain'_cons, phaseOf]
  · simp [hv]

/-! ## C3: view transitions -/

/-- C3, counterexample.  `showDetail` does not clear the
playback-session reference: called on a state with an active movie
session it leaves `currentPlayback` unchanged (non-null), so the claim
that every one of the three transitions sets `currentPlayback` to null
fails on `showDetail`. -/
theorem claim_C3_counterexample :
    (showDetail c3State).currentPlayback =
      some { kind := "movie", movie := some ⟨603⟩, videoElPresent := true } ∧
      ¬ (showDetail c3State).currentPlayback = none := by
  exact ⟨rfl, by simp [showDetail, c3State]⟩

/-- C3, amended.  When the three view elements exist, each of
`showHome`, `showDetail`, `showCricket` leaves exactly one of the three
top-level views visible and destroys any active Hls instance by running
`cleanupHls`; `showHome` and `showCricket` additionally clear the
playback-session reference (`currentPlayback := null`), while
`showDetail` leaves `currentPlayback` unchanged (the detail renderers
that call it overwrite it themselves). -/
theorem claim_C3_amended_view_transitions (s : ViewState)
    (hh : s.homePresent = true) (hd : s.detailPresent = true)
    (hc : s.cricketPresent = true) :
    (visibleViews (showHome s) = 1 ∧ (showHome s).hls = cleanupHls s.hls ∧
        (showHome s).currentPlayback = none) ∧
      (visibleViews (showDetail s) = 1 ∧ (showDetail s).hls = cleanupHls s.hls ∧
        (showDetail s).currentPlayback = s.currentPlayback) ∧
      (visibleViews (showCricket s) = 1 ∧
        (showCricket s).hls = cleanupHls s.hls ∧
        (showCricket s).currentPlayback = none) := by
  refine ⟨⟨?_, ?_, ?_⟩, ⟨?_, ?_, ?_⟩, ⟨?_, ?_, ?_⟩⟩ <;>
    simp [showHome, showDetail, showCricket, visibleViews, hh, hd, hc]

/-- Evaluation of the amended C3 theorem on the concrete state. -/
theorem claim_C3_amended_view_transitions_witness :
    (visibleViews (showHome c3State) = 1 ∧
        (showHome c3State).hls = cleanupHls c3State.hls ∧
        (showHome c3State).currentPlayback = none) ∧
      (visibleViews (showDetail c3State) = 1 ∧
        (showDetail c3State).hls = cleanupHls c3State.hls ∧
        (showDetail c3State).currentPlayback = c3State.currentPlayback) ∧
      (visibleViews (showCricket c3State) = 1 ∧
        (showCricket c3State).hls = cleanupHls c3State.hls ∧
        (showCricket c3State).currentPlayback = none) :=
  claim_C3_amended_view_transitions c3State rfl rfl rfl

/-! ## C4 / C8 / C10: `fetchStreamUrlV2` validation and request shape -/

/-- C4.  For every supported media type, `fetchStreamUrlV2` called with
type `'movie'` and a missing (or otherwise falsy) `tmdbId`, or with
type `'tv'` and any of `tmdbId`, `season`, `episode` missing, throws
the corresponding validation error before issuing any network request:
the run ends in `failedValidation` and no endpoint is ever fetched. -/
theorem claim_C4_missing_ids_fail_before_network
    (cur base : String) (p : StreamParams) (out : FetchOutcome)
    (h : (p.type = "movie" ∧ truthyNum p.tmdbId = false) ∨
      (p.type = "tv" ∧ (truthyNum p.tmdbId = false ∨
        truthyNum p.season = false ∨ truthyNum p.episode = false))) :
    (∃ msg, fetchStreamUrlV2 cur base p out = .failedValidation msg) ∧
      (fetchStreamUrlV2 cur base p out).issuedRequest = none := by
  have hval : ∃ msg, fetchStreamUrlV2Params cur p = .error msg := by
    rcases h with ⟨ht, hid⟩ | ⟨ht, hids⟩
    · exact ⟨"tmdbId is required for movie playback.",
        by simp [fetchStreamUrlV2Params, ht, hid]⟩
    · refine ⟨"tmdbId, season and episode are required for TV playback.", ?_⟩
      have : p.type ≠ "movie" := by rw [ht]; decide
      rcases hids with hid | hid | hid <;>
        simp [fetchStreamUrlV2Params, this, ht, hid]
  obtain ⟨msg, hval⟩ := hval
  have : fetchStreamUrlV2 cur base p out = .failedValidation msg := by
    unfold fetchStreamUrlV2
    rw [hval]
  exact ⟨⟨msg, this⟩, by rw [this]; rfl⟩

/-- Evaluation of C4 at two concrete calls: a movie without `tmdbId`
and a TV request without `episode`. -/
theorem claim_C4_missing_ids_fail_before_network_witness :
    (fetchStreamUrlV2 "vidlink" "http://localhost:4000"
        { type := "movie" } .netError).issuedRequest = none ∧
      (fetchStreamUrlV2 "vidlink" "http://localhost:4000"
        { type := "tv", tmdbId := some 1399, season := some 1 }
        .netError).issuedRequest = none :=
  ⟨(claim_C4_missing_ids_fail_before_network "vidlink" "http://localhost:4000"
      { type := "movie" } .netError (Or.inl ⟨rfl, rfl⟩)).2,
    (claim_C4_missing_ids_fail_before_network "vidlink" "http://localhost:4000"
      { type := "tv", tmdbId := some 1399, season := some 1 } .netError
      (Or.inr ⟨rfl, Or.inr (Or.inr rfl)⟩)).2⟩

/-- If validation passed, the issued request is the proxy base plus the
serialised query. -/
theorem issuedRequest_of_params_ok {cur : String} {p : StreamParams}
    {pairs : List (String × String)}
    (h : fetchStreamUrlV2Params cur p = .ok pairs) (base : String)
    (out : FetchOutcome) :
    (fetchStreamUrlV2 cur base p out).issuedRequest =
      some (base ++ "/v2/stream?" ++ searchParamsToString pairs) := by
  unfold fetchStreamUrlV2
  rw [h]
  cases out with
  | netError => rfl
  | response data =>
    cases data with
    | none => rfl
    | some d =>
      cases hc : (d.ok && truthyStr d.url) <;>
        simp only [hc, if_true, if_false, Bool.false_eq_true,
          ResolveResult.issuedRequest]

/-- C8.  `fetchStreamUrlV2` called with
`{type: 'tv', tmdbId: 1399, season: 1, episode: 1, provider: 'filmex'}`
issues (for any proxy base, module provider state and network outcome)
a GET request to exactly
`{base}/v2/stream?type=tv&provider=filmex&tmdbId=1399&season=1&episode=1`,
with the query parameters in that order. -/
theorem claim_C8_tv_request_url (cur base : String) (out : FetchOutcome) :
    (fetchStreamUrlV2 cur base
        { type := "tv", tmdbId := some 1399, season := some 1,
          episode := some 1, provider := some "filmex" } out).issuedRequest =
      some (base ++
        "/v2/stream?type=tv&provider=filmex&tmdbId=1399&season=1&episode=1") := by
  have h : fetchStreamUrlV2Params cur
      { type := "tv", tmdbId := some 1399, season := some 1,
        episode := some 1, provider := some "filmex" } =
      .ok [("type", "tv"), ("provider", "filmex"), ("tmdbId", "1399"),
        ("season", "1"), ("episode", "1")] := by rfl
  rw [issuedRequest_of_params_ok h base out, String.append_assoc]
  rfl

/-- C10.  The `!tmdbId || !season || !episode` test in the TV branch of
`fetchStreamUrlV2` is a JS falsiness check, so season `0` or episode
`0` (present but numerically zero, e.g. a TMDB "Specials" season)
throws the missing-identifier error and issues no network request;
consistently, `renderTvSeasons` filters out every season with
`season_number` 0, so season 0 is never offered by the UI. -/
theorem claim_C10_zero_season_or_episode_rejected :
    (∀ (cur base : String) (p : StreamParams) (out : FetchOutcome),
      p.type = "tv" → (p.season = some 0 ∨ p.episode = some 0) →
        fetchStreamUrlV2 cur base p out =
          .failedValidation
            "tmdbId, season and episode are required for TV playback." ∧
          (fetchStreamUrlV2 cur base p out).issuedRequest = none) ∧
      ∀ (l : List SeasonInfo) (s : SeasonInfo),
        s ∈ selectableSeasons l → s.season_number ≠ 0 := by
  constructor
  · intro cur base p out ht h0
    have hval : fetchStreamUrlV2Params cur p =
        .error "tmdbId, season and episode are required for TV playback." := by
      have hm : p.type ≠ "movie" := by rw [ht]; decide
      rcases h0 with h0 | h0 <;> simp [fetchStreamUrlV2Params, hm, ht, h0, truthyNum]
    have : fetchStreamUrlV2 cur base p out =
        .failedValidation
          "tmdbId, season and episode are required for TV playback." := by
      unfold fetchStreamUrlV2
      rw [hval]
    exact ⟨this, by rw [this]; rfl⟩
  · intro l s hs
    have := List.of_mem_filter hs
    simp only [Bool.and_eq_true, decide_eq_true_eq] at this
    omega

/-- Evaluation of C10 at season 0 of a concrete TV request, and at a
concrete season list containing a "Specials" season. -/
theorem claim_C10_zero_season_or_episode_rejected_witness :
    (fetchStreamUrlV2 "vidlink" "http://localhost:4000"
        { type := "tv", tmdbId := some 1399, season := some 0,
          episode := some 1 } .netError).issuedRequest = none ∧
      (⟨3, 10⟩ : SeasonInfo) ∈ selectableSeasons [⟨0, 5⟩, ⟨3, 10⟩] ∧
      (0 : Nat) ∉ (selectableSeasons [⟨0, 5⟩, ⟨3, 10⟩]).map SeasonInfo.season_number :=
  ⟨(claim_C10_zero_season_or_episode_rejected.1 _ _ _ _ rfl (Or.inl rfl)).2,
    by decide, by decide⟩

/-! ## C5 / C6: proxy server handlers -/

/-- C5.  For every request to `GET /api/search/multi` whose `query`
parameter is absent or the empty string, the handler responds with
exactly `{results: []}` (status 200, the `res.json` default) and never
contacts the upstream TMDB API — whatever the upstream would have
answered. -/
theorem claim_C5_empty_query_short_circuits
    (query : Option String) (upstream : Except (Option Nat) String)
    (h : query = none ∨ query = some "") :
    searchMultiHandler query upstream = (false, 200, .emptyResults) := by
  rcases h with rfl | rfl <;> rfl

/-- Evaluation of C5 at `query=` (empty string) with an upstream that
would have answered. -/
theorem claim_C5_empty_query_short_circuits_witness :
    searchMultiHandler (some "") (.ok "{}") = (false, 200, .emptyResults) :=
  claim_C5_empty_query_short_circuits (some "") (.ok "{}") (Or.inr rfl)

/-- C6.  For every proxy endpoint handler, when the upstream TMDB call
fails the response body is the JSON object `{error: string}` (namely
`{error: 'Failed to fetch data from TMDB'}`), and the response status
is the upstream error's status code when an HTTP response is present
(HTTP status codes are nonzero, which the `|| 500` fallback requires)
and 500 otherwise. -/
theorem claim_C6_upstream_failure_error_shape (status : Option Nat) :
    (proxyHandler (.error status)).2 =
        .errorObj "Failed to fetch data from TMDB" ∧
      ((∀ n, status = some n → n ≠ 0) →
        (proxyHandler (.error status)).1 = status.getD 500) := by
  constructor
  · cases status with
    | none => rfl
    | some n => simp [proxyHandler, handleTmdbError]
  · intro hn
    cases status with
    | none => rfl
    | some n =>
      have : n ≠ 0 := hn n rfl
      simp [proxyHandler, handleTmdbError, this]

/-- Evaluation of C6 at a 404 upstream failure and a network failure. -/
theorem claim_C6_upstream_failure_error_shape_witness :
    (proxyHandler (.error (some 404)) =
        (404, .errorObj "Failed to fetch data from TMDB")) ∧
      proxyHandler (.error none) =
        (500, .errorObj "Failed to fetch data from TMDB") := by
  have h1 := claim_C6_upstream_failure_error_shape (some 404)
  have h2 := claim_C6_upstream_failure_error_shape none
  exact ⟨Prod.ext (h1.2 (by decide)) h1.1, Prod.ext (h2.2 (by decide)) h2.1⟩

/-! ## C7: empty / whitespace search input -/

/-- C7.  For every search-input value that is empty or consists only of
whitespace (its JS `trim()` is empty): `onSearchInput` cancels any
pending debounce timer, schedules no search, and clears the results
dropdown (emptied and hidden); and `performSearch` on such a query
issues no network call and clears the dropdown likewise. -/
theorem claim_C7_whitespace_search_no_network
    (value : String) (s : SearchUIState)
    (hws : jsTrim value = "") (hel : s.resultsPresent = true) :
    ((onSearchInput value s).pendingQuery = none ∧
        (onSearchInput value s).resultsHtml = "" ∧
        (onSearchInput value s).resultsHidden = true) ∧
      ((performSearch value s).1 = none ∧
        (performSearch value s).2.resultsHtml = "" ∧
        (performSearch value s).2.resultsHidden = true) := by
  have hlen : (jsTrim value).length = 0 := by rw [hws]; rfl
  refine ⟨?_, ?_⟩ <;>
    simp [onSearchInput, performSearch, clearSearchResults, hws, hlen, hel]

/-- Evaluation of C7 on a tab-and-spaces input over a state with stale
results and a pending debounce timer. -/
theorem claim_C7_whitespace_search_no_network_witness :
    (jsTrim " \t " = "") ∧
      ((onSearchInput " \t "
            ⟨true, "<div>old</div>", false, some "old"⟩).pendingQuery = none ∧
        (onSearchInput " \t "
            ⟨true, "<div>old</div>", false, some "old"⟩).resultsHtml = "" ∧
        (onSearchInput " \t "
            ⟨true, "<div>old</div>", false, some "old"⟩).resultsHidden = true) ∧
      ((performSearch " \t " ⟨true, "<div>old</div>", false, some "old"⟩).1 = none) :=
  ⟨by decide,
    (claim_C7_whitespace_search_no_network " \t "
      ⟨true, "<div>old</div>", false, some "old"⟩ (by decide) rfl).1,
    (claim_C7_whitespace_search_no_network " \t "
      ⟨true, "<div>old</div>", false, some "old"⟩ (by decide) rfl).2.1⟩

/-! ## C9: provider switch replays the same content -/

/-- C9.  For every active playback session (non-null `currentPlayback`
with its video element present) holding a well-formed content
reference, `setCurrentProvider` followed by `replayCurrentPlayback`
re-issues stream resolution for the same content reference — same
movie, or same tv/season/episode triple — using the newly selected
provider, and leaves the session (in particular its `kind`, `movie`,
`tv`, `season`, `episode` fields) unchanged. -/
theorem claim_C9_provider_switch_replays_same_content
    (provider : String) (s : PlaybackSession)
    (hv : s.videoElPresent = true)
    (hwf : (s.kind = "movie" ∧ ∃ m, s.movie = some m ∧ m.id ≠ 0) ∨
      (s.kind = "tv" ∧ ∃ t sn ep, s.tv = some t ∧ t.id ≠ 0 ∧
        s.season = some sn ∧ s.episode = some ep)) :
    (replayCurrentPlayback (setCurrentProvider provider) (some s)).2 = some s ∧
      ∃ p, (replayCurrentPlayback (setCurrentProvider provider) (some s)).1 =
          some p ∧
        p.provider = some (getCurrentProvider (setCurrentProvider provider)) ∧
        ((s.kind = "movie" → p.type = "movie" ∧
            p.tmdbId = (s.movie.map MovieRef.id)) ∧
          (s.kind = "tv" → p.type = "tv" ∧
            p.tmdbId = (s.tv.map TvRef.id) ∧
            p.season = (s.season.map SeasonRef.season_number) ∧
            p.episode = (s.episode.map EpisodeRef.episode_number))) := by
  rcases hwf with ⟨hk, m, hm, hid⟩ | ⟨hk, t, sn, ep, ht, hid, hsn, hep⟩
  · have hkne : s.kind ≠ "tv" := by rw [hk]; decide
    refine ⟨?_, ?_⟩ <;>
      simp [replayCurrentPlayback, startMoviePlaybackParams, hv, hk, hm, hid, hkne]
  · have hkne : s.kind ≠ "movie" := by rw [hk]; decide
    refine ⟨?_, ?_⟩ <;>
      simp [replayCurrentPlayback, startEpisodePlaybackParams, hv, hk, ht,
        hid, hsn, hep, hkne]

/-- Evaluation of C9: switching to Filmex while episode S1E1 of show
1399 is playing re-resolves the same episode with provider `filmex`
and leaves the session unchanged. -/
theorem claim_C9_provider_switch_replays_same_content_witness :
    (replayCurrentPlayback (setCurrentProvider "filmex") (some c9Session)).2 =
        some c9Session ∧
      ∃ p,
        (replayCurrentPlayback (setCurrentProvider "filmex")
            (some c9Session)).1 = some p ∧
        p.provider = some (getCurrentProvider (setCurrentProvider "filmex")) ∧
        p.type = "tv" ∧ p.tmdbId = some 1399 ∧
        p.season = some 1 ∧ p.episode = some 1 := by
  have h := claim_C9_provider_switch_replays_same_content "filmex"
    c9Session rfl (Or.inr ⟨rfl, ⟨1399⟩, ⟨1⟩, ⟨1⟩, rfl, by decide, rfl, rfl⟩)
  obtain ⟨h2, p, hp, hprov, _, htv⟩ := h
  exact ⟨h2, p, hp, hprov, by simpa [c9Session] using htv rfl⟩

end Catalog
